import Mathlib

/-!
# Verification of the ts-chat room/session engine

A shallow embedding of the core of the `ts-chat` terminal chat server
(packages `internal/chat`, `internal/server`, `internal/ui`), together with
theorems settling the specification's claims about it.

The repository carries two drafts of `client.go` and `room.go`; the
specification merges them, adopting the hardened draft (the `client.go`
draft with rate limiting and the `fullRoomRejection` flag, and the
`room.go` draft with `context`-based shutdown and the `done` channel).
The definitions below embed that hardened draft.

Modelling conventions:
* Go `time.Time` values become `Int` milliseconds (`time.Second = 1000`).
* Side effects (writes to a client, fan-out deliveries, connection closes)
  become values of an explicit `Effect` type returned alongside new state;
  the room's single control loop becomes a step function over `RoomState`.
* `lipgloss` style rendering (`Style.Render`) only wraps its argument in
  terminal escape codes; it is modelled as the identity on the text content.
* The Go standard-library string helpers the code calls are embedded as the
  structural functions `goLen` (`len` on a string: UTF-8 byte count),
  `goTrimSpace` (`strings.TrimSpace`), `goToLower` (`strings.ToLower`),
  `goHasLead` (`strings.HasPrefix`) and `splitN2` (`strings.SplitN(s, " ", 2)`)
  below, so that every definition evaluates inside the kernel.  `goTrimSpace`
  and `goToLower` use `Char.isWhitespace`/`Char.toLower`, which agree with
  Go's Unicode versions on ASCII input.
-/

/-- `MaxMessageLength` from client.go: maximum message length. -/
def MaxMessageLength : Nat := 1000

/-- `MessageRateLimit` from client.go: maximum messages per window. -/
def MessageRateLimit : Nat := 5

/-- `RateLimitWindow` from client.go: 5 * time.Second, in milliseconds. -/
def RateLimitWindow : Int := 5000

/-- Go `len` on a string: the UTF-8 byte count. -/
def goLen (s : String) : Nat :=
  s.data.foldl (fun n c => n + c.utf8Size) 0

/-- Go `strings.TrimSpace`: strip leading and trailing whitespace. -/
def goTrimSpace (s : String) : String :=
  String.mk (((s.data.dropWhile Char.isWhitespace).reverse.dropWhile Char.isWhitespace).reverse)

/-- Go `strings.ToLower` (ASCII case mapping). -/
def goToLower (s : String) : String :=
  String.mk (s.data.map Char.toLower)

/-- Whether the first list is an initial run of the second. -/
def leadsWith : List Char → List Char → Bool
  | [], _ => true
  | _ :: _, [] => false
  | p :: ps, c :: cs => p = c && leadsWith ps cs

/-- Go `strings.HasPrefix s pat`: `s` starts with the characters of `pat`. -/
def goHasLead (s pat : String) : Bool :=
  leadsWith pat.data s.data

/-- Splits a character list at its first space, if any. -/
def breakAtSpace : List Char → Option (List Char × List Char)
  | [] => none
  | c :: cs =>
      if c = ' ' then some ([], cs)
      else
        match breakAtSpace cs with
        | none => none
        | some (a, b) => some (c :: a, b)

/-- Go `strings.SplitN(s, " ", 2)`: at most two pieces, split at the first
space. -/
def splitN2 (s : String) : List String :=
  match breakAtSpace s.data with
  | none => [s]
  | some (a, b) => [String.mk a, String.mk b]

/-- `Message` from room.go: a chat message. -/
structure Message where
  sender : String
  content : String
  timestamp : Int
  isSystem : Bool
  isAction : Bool
deriving DecidableEq, Repr

/-- An observable side effect of the embedded code.  Each constructor names
the Go operation it stands for. -/
inductive Effect where
  /-- `c.sendSystemMessage(text)`: a system-styled line sent to one client. -/
  | sendSystem (target : String) (text : String)
  /-- the per-member delivery `go client.sendMessage(msg)` inside
  `broadcastMessage`'s fan-out loop. -/
  | sendTo (target : String) (msg : Message)
  /-- `c.room.Broadcast(msg)`: a client handing a message to the room loop. -/
  | broadcastReq (msg : Message)
  /-- `c.write(text)`: a direct write to the client's own connection. -/
  | writeSelf (target : String) (text : String)
  /-- `conn.Close()` for the named client's connection. -/
  | closeConn (target : String)
  /-- `s.cancel()`: cancelling the server context. -/
  | cancelCtx
  /-- `s.listener.Close()`. -/
  | closeListener
  /-- `s.tsServer.Close()` (Tailscale mode only). -/
  | closeTsServer
  /-- `s.wg.Wait()`: joining all spawned connection handlers. -/
  | waitAll
deriving DecidableEq, Repr

/-- `Room` from room.go, restricted to the state the control loop mutates:
`clients` is the key set of the `map[string]*Client` membership map (the
mapped `*Client` values only matter for delivery fan-out, which the
`Effect.sendTo` constructor records by nickname), and `MaxUsers` the
capacity. -/
structure RoomState where
  name : String
  maxUsers : Nat
  clients : List String
deriving DecidableEq, Repr

/-- Go map assignment `r.clients[c.Nickname] = c`: inserts the key if absent
(overwriting the value of a present key leaves the key set unchanged). -/
def mapInsert (m : List String) (k : String) : List String :=
  if m.contains k then m else m ++ [k]

/-- Go `delete(r.clients, nick)`. -/
def mapRemove (m : List String) (k : String) : List String :=
  m.filter (fun x => x ≠ k)

/-- `NewRoom` from room.go: fresh room with an empty membership map. -/
def NewRoom (name : String) (maxUsers : Nat) : RoomState :=
  { name := name, maxUsers := maxUsers, clients := [] }

/-- `broadcastMessage` from room.go: fans the message out to every current
member (each delivery is dispatched as its own goroutine, recorded here as
one `Effect.sendTo` per member). -/
def broadcastMessage (clients : List String) (msg : Message) : List Effect :=
  clients.map (fun nickname => Effect.sendTo nickname msg)

/-- The "%s has joined the room" system message built in `addClient`. -/
def joinedMsg (nick : String) (now : Int) : Message :=
  { sender := "System", content := nick ++ " has joined the room",
    timestamp := now, isSystem := true, isAction := false }

/-- The "%s has left the room" system message built in `removeClient`. -/
def leftMsg (nick : String) (now : Int) : Message :=
  { sender := "System", content := nick ++ " has left the room",
    timestamp := now, isSystem := true, isAction := false }

/-- Result of `addClient`: the updated room, the value the callee leaves in
the client's `fullRoomRejection` flag, and the effects it performed. -/
structure AddResult where
  room : RoomState
  fullRoomRejection : Bool
  effects : List Effect
deriving DecidableEq, Repr

/-- `addClient` from room.go (hardened draft, lines 221-246): if the room is
full it sends a system message to the candidate, sets its
`fullRoomRejection` flag and returns without touching the map or the
connection; otherwise it inserts the nickname and broadcasts the join
notification to the now-current membership. -/
def addClient (r : RoomState) (nick : String) (now : Int) : AddResult :=
  if r.clients.length ≥ r.maxUsers then
    { room := r, fullRoomRejection := true,
      effects := [Effect.sendSystem nick "Sorry, the room is full. Try again later."] }
  else
    let clients := mapInsert r.clients nick
    { room := { r with clients := clients }, fullRoomRejection := false,
      effects := broadcastMessage clients (joinedMsg nick now) }

/-- `removeClient` from room.go (hardened draft, lines 249-265): removes the
nickname if present and broadcasts the leave notification to the remaining
members; a no-op when the nickname is not a member. -/
def removeClient (r : RoomState) (nick : String) (now : Int) : RoomState × List Effect :=
  if r.clients.contains nick then
    let clients := mapRemove r.clients nick
    ({ r with clients := clients }, broadcastMessage clients (leftMsg nick now))
  else
    (r, [])

/-- A request consumed by the room's control loop `run` (join / leave /
broadcast channels). -/
inductive RoomReq where
  | join (nick : String) (now : Int)
  | leave (nick : String) (now : Int)
  | broadcast (msg : Message)
deriving DecidableEq, Repr

/-- One iteration of the control loop `run` from room.go: the select over
the join/leave/broadcast channels, dispatching to `addClient`,
`removeClient` or `broadcastMessage`. -/
def roomStep (r : RoomState) (req : RoomReq) : RoomState × List Effect :=
  match req with
  | RoomReq.join nick now =>
      let res := addClient r nick now
      (res.room, res.effects)
  | RoomReq.leave nick now => removeClient r nick now
  | RoomReq.broadcast msg => (r, broadcastMessage r.clients msg)

/-- The control loop processing a whole sequence of requests, accumulating
the effects in order. -/
def roomRun (r : RoomState) : List RoomReq → RoomState × List Effect
  | [] => (r, [])
  | req :: reqs =>
      ((roomRun (roomStep r req).1 reqs).1,
        (roomStep r req).2 ++ (roomRun (roomStep r req).1 reqs).2)

/-- `GetUserList` from room.go (Go map iteration order is arbitrary; the
embedding uses insertion order). -/
def GetUserList (r : RoomState) : List String :=
  r.clients

/-- `IsNicknameAvailable` from room.go. -/
def IsNicknameAvailable (r : RoomState) (nickname : String) : Bool :=
  !(r.clients.contains nickname)

/-- `FormatSystemMessage` from internal/ui (style rendering elided as
identity on the text). -/
def FormatSystemMessage (message : String) : String :=
  "[System] " ++ message

/-- `FormatUserMessage` from internal/ui. -/
def FormatUserMessage (username message timestamp : String) : String :=
  "[" ++ timestamp ++ "] " ++ username ++ ": " ++ message

/-- `FormatSelfMessage` from internal/ui. -/
def FormatSelfMessage (message timestamp : String) : String :=
  "[" ++ timestamp ++ "] You: " ++ message

/-- `FormatActionMessage` from internal/ui: renders an action-kind message
(`ActionStyle.Render` elided as identity on the text). -/
def FormatActionMessage (username action : String) : String :=
  "* " ++ username ++ " " ++ action

/-- `FormatUserList` from internal/ui (box/styling elided; the "n/max"
occupancy counter is kept verbatim). -/
def FormatUserList (roomName : String) (users : List String) (maxUsers : Nat) : String :=
  "Users in " ++ roomName ++ " (" ++ toString users.length ++ "/" ++ toString maxUsers ++ "):\n"
    ++ String.join (users.map (fun user => "- " ++ user ++ "\n"))

/-- `FormatHelp` from internal/ui (box/styling elided). -/
def FormatHelp : String :=
  "Available Commands:\n" ++
    "/who - Show all users in the room\n" ++
    "/me <action> - Perform an action\n" ++
    "/help - Show this help message\n" ++
    "/quit - Leave the chat"

/-- The `msg.Timestamp.Format("15:04:05")` clock string computed by
`sendMessage` (wall-clock rendering of the instant elided: the model prints
the raw value; no claim depends on the clock text). -/
def formatClock (t : Int) : String :=
  toString t

/-- The formatting step of `sendMessage` from client.go (lines 365-380):
picks the formatter by message kind; system first, then action, then
self/other by comparing the author to the receiving client's nickname. -/
def sendMessageFormat (recipient : String) (msg : Message) : String :=
  if msg.isSystem then
    FormatSystemMessage msg.content ++ "\r\n"
  else if msg.isAction then
    FormatActionMessage msg.sender msg.content ++ "\r\n"
  else if msg.sender = recipient then
    FormatSelfMessage msg.content (formatClock msg.timestamp) ++ "\r\n"
  else
    FormatUserMessage msg.sender msg.content (formatClock msg.timestamp) ++ "\r\n"

/-- `Client` from client.go (hardened draft), restricted to the state the
read loop and the room touch: the negotiated nickname, the rate-limiter's
`messageTimestamps` slice, and the `fullRoomRejection` flag. -/
structure ClientState where
  nickname : String
  messageTimestamps : List Int
  fullRoomRejection : Bool
deriving DecidableEq, Repr

/-- `validateMessageLength` from client.go: Go `len(message)` counts UTF-8
bytes; returns the error text on rejection (`%d` instantiated with
`MaxMessageLength = 1000`). -/
def validateMessageLength (message : String) : Option String :=
  if goLen message > MaxMessageLength then
    some "message too long (max 1000 characters)"
  else
    none

/-- `checkRateLimit` from client.go: appends the current timestamp, prunes
timestamps at or before `now - RateLimitWindow` (`ts.After(cutoff)`), stores
the pruned list back, and rejects when more than `MessageRateLimit`
timestamps remain.  Returns the stored list together with `some waitTime`
(milliseconds until `messageTimestamps[0]` exits the window; the code
formats it as seconds with `waitTime.Seconds()`) on rejection, `none` on
acceptance. -/
def checkRateLimit (timestamps : List Int) (now : Int) : List Int × Option Int :=
  let appended := timestamps ++ [now]
  let cutoff := now - RateLimitWindow
  let newTimestamps := appended.filter (fun ts => decide (cutoff < ts))
  if newTimestamps.length > MessageRateLimit then
    (newTimestamps, some (newTimestamps.headD 0 + RateLimitWindow - now))
  else
    (newTimestamps, none)

/-- The "rate limit exceeded" error text from `checkRateLimit` (the wait
time is carried in milliseconds; the code renders it as seconds). -/
def rateLimitErrorText (waitMs : Int) : String :=
  "rate limit exceeded (max 5 messages per 5s). Try again in " ++ toString waitMs ++ "ms"

/-- `handleCommand` from client.go (hardened draft, lines 300-337): splits
off the command word, lowercases it, and dispatches.  Returns the effects
performed together with the error value returned to `Handle`. -/
def handleCommand (room : RoomState) (c : ClientState) (cmd : String) (now : Int) :
    List Effect × Option String :=
  let parts := splitN2 cmd
  let command := goToLower (parts.headD "")
  if command = "/who" then
    ([Effect.writeSelf c.nickname (FormatUserList room.name (GetUserList room) room.maxUsers ++ "\r\n")], none)
  else if command = "/me" then
    if parts.length < 2 ∨ goTrimSpace (parts.getD 1 "") = "" then
      ([Effect.sendSystem c.nickname "Usage: /me <action>"], some "invalid /me command usage")
    else
      let action := parts.getD 1 ""
      ([Effect.broadcastReq
          { sender := c.nickname, content := action, timestamp := now,
            isSystem := false, isAction := true }], none)
  else if command = "/help" then
    ([Effect.writeSelf c.nickname (FormatHelp ++ "\r\n")], none)
  else if command = "/quit" then
    ([Effect.sendSystem c.nickname "Goodbye!", Effect.closeConn c.nickname], none)
  else
    ([Effect.sendSystem c.nickname ("Unknown command: " ++ command)],
      some ("unknown command: " ++ command))

/-- One iteration of the read loop `Handle` from client.go (hardened draft,
lines 211-249), processing one received line: trim; skip empty; length
check; rate-limit check unless the line starts with the literal characters
"/quit"; then dispatch a command or broadcast an ordinary message.  A
command error is relayed to the client as an additional "Error: ..." system
message by `Handle`.  No path through line processing exits the loop. -/
def handleLine (room : RoomState) (c : ClientState) (line : String) (now : Int) :
    ClientState × List Effect :=
  let message := goTrimSpace line
  if message = "" then
    (c, [])
  else
    match validateMessageLength message with
    | some err => (c, [Effect.sendSystem c.nickname ("Error: " ++ err)])
    | none =>
      let (c1, rejected) :=
        if goHasLead message "/quit" then
          (c, none)
        else
          let (ts, r) := checkRateLimit c.messageTimestamps now
          ({ c with messageTimestamps := ts }, r)
      match rejected with
      | some waitMs =>
          (c1, [Effect.sendSystem c.nickname ("Error: " ++ rateLimitErrorText waitMs)])
      | none =>
        if goHasLead message "/" then
          let (effs, err) := handleCommand room c1 message now
          match err with
          | some e => (c1, effs ++ [Effect.sendSystem c.nickname ("Error: " ++ e)])
          | none => (c1, effs)
        else
          (c1, [Effect.broadcastReq
            { sender := c.nickname, content := message, timestamp := now,
              isSystem := false, isAction := false }])

/-- The read loop running over a whole sequence of (line, arrival time)
pairs, accumulating effects: rejected lines do not stop the loop. -/
def processLines (room : RoomState) (c : ClientState) :
    List (String × Int) → ClientState × List Effect
  | [] => (c, [])
  | (line, now) :: rest =>
      ((processLines room (handleLine room c line now).1 rest).1,
        (handleLine room c line now).2
          ++ (processLines room (handleLine room c line now).1 rest).2)

/-- Outcome of one iteration of the nickname-negotiation loop in
`requestNickname` (client.go, lines 85-125). -/
inductive NickResult where
  /-- trimmed candidate empty: "Nickname cannot be empty", re-prompt. -/
  | rejectedEmpty
  /-- candidate lowercases to "system": reserved, re-prompt. -/
  | rejectedReserved
  /-- candidate already a member: taken, re-prompt. -/
  | rejectedTaken
  /-- candidate accepted; the session's nickname is fixed to it. -/
  | accepted (nickname : String)
deriving DecidableEq, Repr

/-- One iteration of `requestNickname`'s loop from client.go: trim the read
line, reject empty / reserved ("system" case-insensitively) / taken
candidates with a re-prompt, otherwise set `c.Nickname` and exit the
loop. -/
def requestNicknameStep (room : RoomState) (line : String) : NickResult :=
  let nickname := goTrimSpace line
  if nickname = "" then
    NickResult.rejectedEmpty
  else if goToLower nickname = "system" then
    NickResult.rejectedReserved
  else if !(IsNicknameAvailable room nickname) then
    NickResult.rejectedTaken
  else
    NickResult.accepted nickname

/-- The post-`Join` check in `NewClient` (client.go, lines 58-63): if the
room set `fullRoomRejection`, the constructor closes the connection and
fails with "room is full"; otherwise construction proceeds. -/
def newClientJoinCheck (c : ClientState) : List Effect × Option String :=
  if c.fullRoomRejection then
    ([Effect.closeConn c.nickname], some "room is full")
  else
    ([], none)

/-- The synchronization state of one room's shutdown protocol (room.go):
`cancelled` is the room context (`r.cancel()` called), `runExited` that the
`run` goroutine has returned, `doneClosed` that `close(r.done)` has fired
(the `defer` in `run`), and `stopReturned` that `Stop()` has returned to
its caller. -/
structure RoomLifecycle where
  cancelled : Bool
  runExited : Bool
  doneClosed : Bool
  stopReturned : Bool
deriving DecidableEq, Repr

/-- State at `NewRoom`: context live, `run` goroutine running, `done` open,
`Stop` not yet returned. -/
def roomLifecycleInit : RoomLifecycle :=
  { cancelled := false, runExited := false, doneClosed := false, stopReturned := false }

/-- The interleaved atomic steps of `Stop` (room.go, lines 317-333) and the
`run` goroutine (lines 203-218):
* `cancel`: `Stop` calls `r.cancel()`;
* `runExit`: `run` observes `<-r.ctx.Done()` and returns, its deferred
  `close(r.done)` firing as it exits — only possible once the context is
  cancelled and only once;
* `stopReturn`: `Stop`'s `<-r.done` receive completes — a receive on a
  channel that is never sent on only unblocks once the channel is closed —
  and `Stop` returns. -/
inductive RoomLifecycleStep : RoomLifecycle → RoomLifecycle → Prop
  | cancel (s : RoomLifecycle) :
      RoomLifecycleStep s { s with cancelled := true }
  | runExit (s : RoomLifecycle) (hc : s.cancelled = true) (hr : s.runExited = false) :
      RoomLifecycleStep s { s with runExited := true, doneClosed := true }
  | stopReturn (s : RoomLifecycle) (hd : s.doneClosed = true) :
      RoomLifecycleStep s { s with stopReturned := true }

/-- Lifecycle states reachable from `roomLifecycleInit` by interleaving the
protocol's steps. -/
inductive RoomLifecycleReachable : RoomLifecycle → Prop
  | init : RoomLifecycleReachable roomLifecycleInit
  | step {s s' : RoomLifecycle} (h : RoomLifecycleReachable s)
      (hs : RoomLifecycleStep s s') : RoomLifecycleReachable s'

/-- `Stop` from server.go (lines 156-188): cancel the server context, close
every live connection, close the listener if bound, close the tsnet server
in Tailscale mode, then wait for all spawned goroutines.  `connections` is
the key list of the live-connection map. -/
def serverStop (connections : List String) (listenerBound : Bool) (tailscaleMode : Bool) :
    List Effect :=
  [Effect.cancelCtx]
    ++ connections.map (fun addr => Effect.closeConn addr)
    ++ (if listenerBound then [Effect.closeListener] else [])
    ++ (if tailscaleMode then [Effect.closeTsServer] else [])
    ++ [Effect.waitAll]

/-! ## Helper lemmas -/

lemma mapInsert_length_le (m : List String) (k : String) :
    (mapInsert m k).length ≤ m.length + 1 := by
  unfold mapInsert
  split
  · exact Nat.le_succ _
  · simp

lemma mapRemove_not_contains (m : List String) (k : String) :
    (mapRemove m k).contains k = false := by
  simp [mapRemove]

lemma removeClient_not_member (r : RoomState) (nick : String) (now : Int)
    (h : r.clients.contains nick = false) :
    removeClient r nick now = (r, []) := by
  have hmem : nick ∉ r.clients := by simpa using h
  simp [removeClient, hmem]

lemma removeClient_contains_after (r : RoomState) (nick : String) (now : Int) :
    ((removeClient r nick now).1).clients.contains nick = false := by
  unfold removeClient
  by_cases hc : r.clients.contains nick = true
  · rw [if_pos hc]
    exact mapRemove_not_contains _ _
  · rw [if_neg hc]
    exact Bool.eq_false_iff.mpr hc

lemma roomStep_inv (r : RoomState) (req : RoomReq)
    (h : r.clients.length ≤ r.maxUsers) :
    (roomStep r req).1.clients.length ≤ r.maxUsers ∧
    (roomStep r req).1.maxUsers = r.maxUsers := by
  cases req with
  | join nick now =>
      by_cases hf : r.clients.length ≥ r.maxUsers
      · simpa [roomStep, addClient, hf] using h
      · have hlt : r.clients.length < r.maxUsers := Nat.lt_of_not_le hf
        have h2 : (mapInsert r.clients nick).length ≤ r.maxUsers := by
          have := mapInsert_length_le r.clients nick
          omega
        simp [roomStep, addClient, hf, h2]
  | leave nick now =>
      by_cases hc : nick ∈ r.clients
      · have hle : (mapRemove r.clients nick).length ≤ r.clients.length :=
          List.length_filter_le _ _
        simp [roomStep, removeClient, hc]
        omega
      · have h0 : r.clients.contains nick = false := by simpa using hc
        simp [roomStep, removeClient_not_member r nick now h0, h]
  | broadcast msg => simpa [roomStep] using h

lemma roomRun_inv (reqs : List RoomReq) (r : RoomState)
    (h : r.clients.length ≤ r.maxUsers) :
    (roomRun r reqs).1.clients.length ≤ (roomRun r reqs).1.maxUsers ∧
    (roomRun r reqs).1.maxUsers = r.maxUsers := by
  induction reqs generalizing r with
  | nil => simpa [roomRun] using h
  | cons req reqs ih =>
      obtain ⟨h1, h2⟩ := roomStep_inv r req h
      obtain ⟨h3, h4⟩ := ih (roomStep r req).1 (h2 ▸ h1)
      refine ⟨?_, ?_⟩
      · simpa [roomRun] using h3
      · simpa [roomRun, h4] using h2

/-! ## Claims -/

/-- C1: over every sequence of Join, Leave and Broadcast requests processed
by the room's control loop starting from a fresh room, the size of the
nickname membership map never exceeds the capacity `MaxUsers`; and a Join
request arriving when the size already equals the capacity is rejected
(`fullRoomRejection` is set) and adds no entry to the map. -/
theorem C1_capacity_never_exceeded (name : String) (maxUsers : Nat)
    (reqs : List RoomReq) (r : RoomState) (nick : String) (now : Int)
    (hfull : r.clients.length = r.maxUsers) :
    (roomRun (NewRoom name maxUsers) reqs).1.clients.length ≤ maxUsers ∧
    (addClient r nick now).fullRoomRejection = true ∧
    (addClient r nick now).room = r := by
  have hge : r.clients.length ≥ r.maxUsers := Nat.le_of_eq hfull.symm
  refine ⟨?_, ?_, ?_⟩
  · obtain ⟨h1, h2⟩ := roomRun_inv reqs (NewRoom name maxUsers) (by simp [NewRoom])
    rw [h2] at h1
    simpa [NewRoom] using h1
  · simp [addClient, hge]
  · simp [addClient, hge]

theorem C1_capacity_never_exceeded_witness :
    (roomRun (NewRoom "R" 2)
        [RoomReq.join "A" 0, RoomReq.join "B" 0, RoomReq.join "C" 0]).1.clients.length ≤ 2 ∧
    (addClient ⟨"R", 1, ["A"]⟩ "B" 0).fullRoomRejection = true ∧
    (addClient ⟨"R", 1, ["A"]⟩ "B" 0).room = ⟨"R", 1, ["A"]⟩ :=
  C1_capacity_never_exceeded "R" 2 [RoomReq.join "A" 0, RoomReq.join "B" 0, RoomReq.join "C" 0]
    ⟨"R", 1, ["A"]⟩ "B" 0 (by decide)

/-- C2: a Join rejected at capacity only sends a "room is full" system
message to the client — the room performs no `closeConn` effect and leaves
the map untouched; the caller `NewClient` observes the `fullRoomRejection`
flag, closes the connection itself and fails with "room is full". -/
theorem C2_rejection_leaves_close_to_caller (r : RoomState) (nick : String)
    (now : Int) (ts : List Int) (h : r.clients.length = r.maxUsers) :
    (addClient r nick now).effects =
      [Effect.sendSystem nick "Sorry, the room is full. Try again later."] ∧
    (∀ t, Effect.closeConn t ∉ (addClient r nick now).effects) ∧
    (addClient r nick now).room = r ∧
    newClientJoinCheck ⟨nick, ts, (addClient r nick now).fullRoomRejection⟩ =
      ([Effect.closeConn nick], some "room is full") := by
  have hge : r.clients.length ≥ r.maxUsers := Nat.le_of_eq h.symm
  refine ⟨by simp [addClient, hge], ?_, by simp [addClient, hge], ?_⟩
  · intro t hmem
    simp [addClient, hge] at hmem
  · simp [addClient, hge, newClientJoinCheck]

theorem C2_rejection_leaves_close_to_caller_witness :
    (addClient ⟨"R", 1, ["A"]⟩ "B" 7).effects =
      [Effect.sendSystem "B" "Sorry, the room is full. Try again later."] ∧
    (∀ t, Effect.closeConn t ∉ (addClient ⟨"R", 1, ["A"]⟩ "B" 7).effects) ∧
    (addClient ⟨"R", 1, ["A"]⟩ "B" 7).room = ⟨"R", 1, ["A"]⟩ ∧
    newClientJoinCheck ⟨"B", [], (addClient ⟨"R", 1, ["A"]⟩ "B" 7).fullRoomRejection⟩ =
      ([Effect.closeConn "B"], some "room is full") :=
  C2_rejection_leaves_close_to_caller ⟨"R", 1, ["A"]⟩ "B" 7 [] (by decide)

/-- C3: a Leave for a nickname not in the membership map is a no-op (map
unchanged, no effect performed); a second Leave after any first Leave of
the same nickname is always a no-op; and in the join-then-double-leave
trace the "has left" notification is broadcast exactly once, with no
duplicate from the second leave. -/
theorem C3_leave_idempotent (r r2 : RoomState) (nick nick2 : String)
    (now now2 now3 : Int) (h : r.clients.contains nick = false) :
    removeClient r nick now = (r, []) ∧
    removeClient (removeClient r2 nick2 now2).1 nick2 now3 =
      ((removeClient r2 nick2 now2).1, []) ∧
    (roomRun (NewRoom "room" 10)
        [RoomReq.join "A" 0, RoomReq.join "X" 1,
          RoomReq.leave "X" 2, RoomReq.leave "X" 3]).2 =
      [Effect.sendTo "A" (joinedMsg "A" 0),
        Effect.sendTo "A" (joinedMsg "X" 1), Effect.sendTo "X" (joinedMsg "X" 1),
        Effect.sendTo "A" (leftMsg "X" 2)] := by
  refine ⟨removeClient_not_member r nick now h, ?_, by decide⟩
  exact removeClient_not_member _ nick2 now3 (removeClient_contains_after r2 nick2 now2)

theorem C3_leave_idempotent_witness :
    removeClient ⟨"R", 10, ["A"]⟩ "B" 5 = (⟨"R", 10, ["A"]⟩, []) ∧
    removeClient (removeClient ⟨"R", 10, ["A", "X"]⟩ "X" 6).1 "X" 7 =
      ((removeClient ⟨"R", 10, ["A", "X"]⟩ "X" 6).1, []) ∧
    (roomRun (NewRoom "room" 10)
        [RoomReq.join "A" 0, RoomReq.join "X" 1,
          RoomReq.leave "X" 2, RoomReq.leave "X" 3]).2 =
      [Effect.sendTo "A" (joinedMsg "A" 0),
        Effect.sendTo "A" (joinedMsg "X" 1), Effect.sendTo "X" (joinedMsg "X" 1),
        Effect.sendTo "A" (leftMsg "X" 2)] :=
  C3_leave_idempotent ⟨"R", 10, ["A"]⟩ ⟨"R", 10, ["A", "X"]⟩ "B" "X" 5 6 7 (by decide)

/-- C4: a trimmed line of exactly 1000 bytes passes the length check; one of
1001 bytes is rejected with the too-long error system message, is not
broadcast, leaves the client state unchanged, and the read loop continues
with the remaining lines. -/
theorem C4_message_length_limit (room : RoomState) (c : ClientState)
    (s t : String) (now : Int) (rest : List (String × Int))
    (h1000 : goLen s = 1000) (h1001 : goLen t = 1001) (ht : goTrimSpace t = t) :
    validateMessageLength s = none ∧
    validateMessageLength t = some "message too long (max 1000 characters)" ∧
    handleLine room c t now =
      (c, [Effect.sendSystem c.nickname "Error: message too long (max 1000 characters)"]) ∧
    (∀ msg, Effect.broadcastReq msg ∉ (handleLine room c t now).2) ∧
    processLines room c ((t, now) :: rest) =
      ((processLines room c rest).1,
        Effect.sendSystem c.nickname "Error: message too long (max 1000 characters)"
          :: (processLines room c rest).2) := by
  have tne : t ≠ "" := by
    intro he
    rw [he] at h1001
    exact absurd h1001 (by decide)
  have hv : validateMessageLength t = some "message too long (max 1000 characters)" := by
    simp [validateMessageLength, h1001, MaxMessageLength]
  have hl : handleLine room c t now =
      (c, [Effect.sendSystem c.nickname "Error: message too long (max 1000 characters)"]) := by
    simp [handleLine, ht, tne, hv]
  refine ⟨by simp [validateMessageLength, h1000, MaxMessageLength], hv, hl, ?_, ?_⟩
  · intro msg hmem
    rw [hl] at hmem
    simp at hmem
  · simp [processLines, hl]

set_option maxRecDepth 100000 in
theorem C4_message_length_limit_witness :
    validateMessageLength (String.mk (List.replicate 1000 'a')) = none ∧
    validateMessageLength (String.mk (List.replicate 1001 'a')) =
      some "message too long (max 1000 characters)" ∧
    handleLine (NewRoom "R" 10) ⟨"Alice", [], false⟩ (String.mk (List.replicate 1001 'a')) 3 =
      (⟨"Alice", [], false⟩,
        [Effect.sendSystem "Alice" "Error: message too long (max 1000 characters)"]) ∧
    (∀ msg, Effect.broadcastReq msg ∉
      (handleLine (NewRoom "R" 10) ⟨"Alice", [], false⟩ (String.mk (List.replicate 1001 'a')) 3).2) ∧
    processLines (NewRoom "R" 10) ⟨"Alice", [], false⟩
        [(String.mk (List.replicate 1001 'a'), 3), ("hi", 4)] =
      ((processLines (NewRoom "R" 10) ⟨"Alice", [], false⟩ [("hi", 4)]).1,
        Effect.sendSystem "Alice" "Error: message too long (max 1000 characters)"
          :: (processLines (NewRoom "R" 10) ⟨"Alice", [], false⟩ [("hi", 4)]).2) :=
  C4_message_length_limit (NewRoom "R" 10) ⟨"Alice", [], false⟩
    (String.mk (List.replicate 1000 'a')) (String.mk (List.replicate 1001 'a')) 3 [("hi", 4)]
    (by decide) (by decide) (by decide)

lemma handleCommand_only_nickname (room : RoomState) (c c2 : ClientState)
    (cmd : String) (now : Int) (h : c.nickname = c2.nickname) :
    handleCommand room c cmd now = handleCommand room c2 cmd now := by
  unfold handleCommand
  rw [h]

lemma handleLine_quit_skips_rate_limit (room : RoomState) (c : ClientState)
    (line : String) (now : Int)
    (hq : goHasLead (goTrimSpace line) "/quit" = true) :
    (handleLine room c line now).1 = c := by
  unfold handleLine
  simp only [hq, if_true]
  split
  · rfl
  · split
    · rfl
    · split
      · split <;> rfl
      · rfl

lemma handleLine_quit_ignores_timestamps (room : RoomState) (c : ClientState)
    (ts2 : List Int) (line : String) (now : Int)
    (hq : goHasLead (goTrimSpace line) "/quit" = true) :
    (handleLine room
        { nickname := c.nickname, messageTimestamps := ts2,
          fullRoomRejection := c.fullRoomRejection } line now).2 =
      (handleLine room c line now).2 := by
  unfold handleLine
  simp only [hq, if_true]
  rw [handleCommand_only_nickname room
    { nickname := c.nickname, messageTimestamps := ts2,
      fullRoomRejection := c.fullRoomRejection } c (goTrimSpace line) now rfl]
  split
  · rfl
  · split
    · rfl
    · split
      · split <;> rfl
      · rfl

/-- C5: a message attempt is rejected exactly when, counting the attempt's
own timestamp, more than `MessageRateLimit` (5) timestamps lie inside the
trailing `RateLimitWindow` (5 s); the reported wait is the time until the
oldest in-window timestamp exits the window; in the concrete session that
sends 5 messages within 1 second the 6th inside the window is rejected and
a message after the window has passed is accepted; and a line starting with
"/quit" never reaches the rate-limit check (its outcome ignores the
recorded timestamps, which it leaves untouched). -/
theorem C5_sliding_window_rate_limit (ts ts2 : List Int) (now now2 w : Int)
    (room : RoomState) (c : ClientState) (line : String) :
    (((checkRateLimit ts now).2).isSome = true ↔
      ((ts ++ [now]).filter (fun u => decide (now - RateLimitWindow < u))).length
        > MessageRateLimit) ∧
    ((checkRateLimit ts now).2 = some w →
      w = ((ts ++ [now]).filter (fun u => decide (now - RateLimitWindow < u))).headD 0
            + RateLimitWindow - now) ∧
    (processLines (NewRoom "R" 10) ⟨"Alice", [], false⟩
        [("hello", 0), ("hello", 200), ("hello", 400), ("hello", 600), ("hello", 800),
          ("hello", 1000), ("hello", 6000)]).2 =
      [Effect.broadcastReq ⟨"Alice", "hello", 0, false, false⟩,
        Effect.broadcastReq ⟨"Alice", "hello", 200, false, false⟩,
        Effect.broadcastReq ⟨"Alice", "hello", 400, false, false⟩,
        Effect.broadcastReq ⟨"Alice", "hello", 600, false, false⟩,
        Effect.broadcastReq ⟨"Alice", "hello", 800, false, false⟩,
        Effect.sendSystem "Alice" ("Error: " ++ rateLimitErrorText 4000),
        Effect.broadcastReq ⟨"Alice", "hello", 6000, false, false⟩] ∧
    (goHasLead (goTrimSpace line) "/quit" = true →
      (handleLine room c line now2).1 = c ∧
      (handleLine room
          { nickname := c.nickname, messageTimestamps := ts2,
            fullRoomRejection := c.fullRoomRejection } line now2).2 =
        (handleLine room c line now2).2) := by
  refine ⟨?_, ?_, by decide, ?_⟩
  · simp only [checkRateLimit]
    split
    next h => simpa using h
    next h => simpa using h
  · intro hw
    simp only [checkRateLimit] at hw
    split at hw
    · exact (Option.some_inj.mp hw).symm
    · exact absurd hw (by simp)
  · intro hq
    exact ⟨handleLine_quit_skips_rate_limit room c line now2 hq,
      handleLine_quit_ignores_timestamps room c ts2 line now2 hq⟩

theorem C5_sliding_window_rate_limit_witness :
    (checkRateLimit [0, 0, 0, 0, 0] (0 : Int)).2 = some 5000 ∧
    (5000 : Int) = (([0, 0, 0, 0, 0] ++ [(0 : Int)]).filter
        (fun u => decide ((0 : Int) - RateLimitWindow < u))).headD 0 + RateLimitWindow - 0 ∧
    goHasLead (goTrimSpace "/quit") "/quit" = true ∧
    (handleLine (NewRoom "R" 10) ⟨"Alice", [0, 0, 0, 0, 0], false⟩ "/quit" 0).1 =
      ⟨"Alice", [0, 0, 0, 0, 0], false⟩ ∧
    (handleLine (NewRoom "R" 10)
        { nickname := (⟨"Alice", [0, 0, 0, 0, 0], false⟩ : ClientState).nickname,
          messageTimestamps := [42],
          fullRoomRejection := (⟨"Alice", [0, 0, 0, 0, 0], false⟩ : ClientState).fullRoomRejection }
        "/quit" 0).2 =
      (handleLine (NewRoom "R" 10) ⟨"Alice", [0, 0, 0, 0, 0], false⟩ "/quit" 0).2 := by
  have h := C5_sliding_window_rate_limit [0, 0, 0, 0, 0] [42] 0 0 5000
    (NewRoom "R" 10) ⟨"Alice", [0, 0, 0, 0, 0], false⟩ "/quit"
  exact ⟨by decide, h.2.1 (by decide), by decide,
    (h.2.2.2 (by decide)).1, (h.2.2.2 (by decide)).2⟩

/-- C6 counterexample: with five in-window timestamps recorded, the attempt
at time 0 is rejected, yet the stored timestamp list afterwards differs
from the list before the attempt — `checkRateLimit` does not leave the
window as it was on rejection. -/
theorem C6_window_restored_counterexample :
    ((checkRateLimit [0, 0, 0, 0, 0] 0).2).isSome = true ∧
    (checkRateLimit [0, 0, 0, 0, 0] 0).1 ≠ [0, 0, 0, 0, 0] := by decide

/-- C6 amended: on a rejected attempt the sliding window is not rolled
back — `checkRateLimit` stores the pruned window *including* the rejected
attempt's own timestamp, so rejected attempts do consume rate-limit budget
for subsequent messages (in the concrete trace, the five accepted sends at
time 0 have left the window by time 5050, and the attempt then is rejected
purely on the strength of five retained rejected-attempt timestamps). -/
theorem C6_rejected_attempt_retained (ts : List Int) (now : Int)
    (_h : ((checkRateLimit ts now).2).isSome = true) :
    (checkRateLimit ts now).1 =
      (ts ++ [now]).filter (fun u => decide (now - RateLimitWindow < u)) ∧
    now ∈ (checkRateLimit ts now).1 ∧
    (processLines (NewRoom "R" 10) ⟨"Alice", [], false⟩
        [("hello", 0), ("hello", 0), ("hello", 0), ("hello", 0), ("hello", 0),
          ("hello", 100), ("hello", 200), ("hello", 300), ("hello", 400), ("hello", 500),
          ("hello", 5050)]).2.getLast? =
      some (Effect.sendSystem "Alice" ("Error: " ++ rateLimitErrorText 50)) := by
  have hst : (checkRateLimit ts now).1 =
      (ts ++ [now]).filter (fun u => decide (now - RateLimitWindow < u)) := by
    simp only [checkRateLimit]
    split <;> rfl
  refine ⟨hst, ?_, by decide⟩
  rw [hst]
  refine List.mem_filter.mpr ⟨by simp, ?_⟩
  simp only [decide_eq_true_eq, RateLimitWindow]
  omega

theorem C6_rejected_attempt_retained_witness :
    ((checkRateLimit [0, 0, 0, 0, 0] (0 : Int)).2).isSome = true ∧
    (checkRateLimit [0, 0, 0, 0, 0] (0 : Int)).1 =
      (([0, 0, 0, 0, 0] : List Int) ++ [(0 : Int)]).filter
        (fun u => decide ((0 : Int) - RateLimitWindow < u)) ∧
    (0 : Int) ∈ (checkRateLimit [0, 0, 0, 0, 0] (0 : Int)).1 :=
  have h := C6_rejected_attempt_retained [0, 0, 0, 0, 0] 0 (by decide)
  ⟨by decide, h.1, h.2.1⟩

/-- C7: one iteration of nickname negotiation on a candidate line: after
trimming, an empty candidate is rejected as empty, a candidate whose
lowercase form is "system" (any capitalization) is rejected as reserved, a
candidate already present in the membership map is rejected as taken, and
any other candidate is accepted and becomes the session's nickname. -/
theorem C7_nickname_negotiation (room : RoomState) (line : String) :
    (goTrimSpace line = "" → requestNicknameStep room line = NickResult.rejectedEmpty) ∧
    (goToLower (goTrimSpace line) = "system" →
      requestNicknameStep room line = NickResult.rejectedReserved) ∧
    (goTrimSpace line ≠ "" → goToLower (goTrimSpace line) ≠ "system" →
      room.clients.contains (goTrimSpace line) = true →
      requestNicknameStep room line = NickResult.rejectedTaken) ∧
    (goTrimSpace line ≠ "" → goToLower (goTrimSpace line) ≠ "system" →
      room.clients.contains (goTrimSpace line) = false →
      requestNicknameStep room line = NickResult.accepted (goTrimSpace line)) := by
  refine ⟨?_, ?_, ?_, ?_⟩
  · intro he
    simp [requestNicknameStep, he]
  · intro hs
    have hne : goTrimSpace line ≠ "" := by
      intro he
      rw [he] at hs
      exact absurd hs (by decide)
    simp [requestNicknameStep, hne, hs]
  · intro hne hns htaken
    have hmem : goTrimSpace line ∈ room.clients := by simpa using htaken
    simp [requestNicknameStep, hne, hns, IsNicknameAvailable, hmem]
  · intro hne hns hfree
    have hmem : goTrimSpace line ∉ room.clients := by simpa using hfree
    simp [requestNicknameStep, hne, hns, IsNicknameAvailable, hmem]

theorem C7_nickname_negotiation_witness :
    requestNicknameStep ⟨"R", 10, ["Bob"]⟩ "   " = NickResult.rejectedEmpty ∧
    requestNicknameStep ⟨"R", 10, ["Bob"]⟩ " SyStEm " = NickResult.rejectedReserved ∧
    requestNicknameStep ⟨"R", 10, ["Bob"]⟩ " Bob " = NickResult.rejectedTaken ∧
    requestNicknameStep ⟨"R", 10, ["Bob"]⟩ " Alice " = NickResult.accepted "Alice" := by
  have h1 := C7_nickname_negotiation ⟨"R", 10, ["Bob"]⟩ "   "
  have h2 := C7_nickname_negotiation ⟨"R", 10, ["Bob"]⟩ " SyStEm "
  have h3 := C7_nickname_negotiation ⟨"R", 10, ["Bob"]⟩ " Bob "
  have h4 := C7_nickname_negotiation ⟨"R", 10, ["Bob"]⟩ " Alice "
  exact ⟨h1.1 (by decide), h2.2.1 (by decide),
    h3.2.2.1 (by decide) (by decide) (by decide),
    h4.2.2.2 (by decide) (by decide) (by decide)⟩

/-- C8: a `/me` command whose trailing action text is absent, empty or
whitespace-only only sends the local usage notice (no broadcast); otherwise
it broadcasts an action-kind message carrying the trailing text; the room's
fan-out of a broadcast reaches every member, the sender included; and an
action message renders through `FormatActionMessage`, so `/me waves` from
"Alice" renders as `* Alice waves`. -/
theorem C8_me_action_command (room : RoomState) (c : ClientState) (cmd : String)
    (now : Int) (sender : String) (msg : Message) :
    (goToLower ((splitN2 cmd).headD "") = "/me" →
      ((splitN2 cmd).length < 2 ∨ goTrimSpace ((splitN2 cmd).getD 1 "") = "") →
      handleCommand room c cmd now =
        ([Effect.sendSystem c.nickname "Usage: /me <action>"],
          some "invalid /me command usage")) ∧
    (goToLower ((splitN2 cmd).headD "") = "/me" →
      ¬((splitN2 cmd).length < 2 ∨ goTrimSpace ((splitN2 cmd).getD 1 "") = "") →
      handleCommand room c cmd now =
        ([Effect.broadcastReq
            { sender := c.nickname, content := (splitN2 cmd).getD 1 "",
              timestamp := now, isSystem := false, isAction := true }], none)) ∧
    (msg.isSystem = false → msg.isAction = true → ∀ recipient,
      sendMessageFormat recipient msg =
        FormatActionMessage msg.sender msg.content ++ "\r\n") ∧
    (sender ∈ room.clients →
      Effect.sendTo sender msg ∈ (roomStep room (RoomReq.broadcast msg)).2) ∧
    FormatActionMessage "Alice" "waves" = "* Alice waves" := by
  refine ⟨?_, ?_, ?_, ?_, by decide⟩
  · intro hme husage
    simp only [List.headD_eq_head?_getD, List.getD_eq_getElem?_getD] at hme husage
    simp [handleCommand, hme, husage]
  · intro hme husage
    simp only [List.headD_eq_head?_getD, List.getD_eq_getElem?_getD] at hme husage
    simp [handleCommand, hme, husage]
  · intro hsys hact recipient
    simp [sendMessageFormat, hsys, hact]
  · intro hmem
    simp only [roomStep, broadcastMessage, List.mem_map]
    exact ⟨sender, hmem, rfl⟩

theorem C8_me_action_command_witness :
    handleCommand ⟨"R", 10, ["Alice", "Bob"]⟩ ⟨"Alice", [], false⟩ "/me   " 7 =
      ([Effect.sendSystem "Alice" "Usage: /me <action>"], some "invalid /me command usage") ∧
    handleCommand ⟨"R", 10, ["Alice", "Bob"]⟩ ⟨"Alice", [], false⟩ "/me waves" 7 =
      ([Effect.broadcastReq
          { sender := "Alice", content := "waves", timestamp := 7,
            isSystem := false, isAction := true }], none) ∧
    sendMessageFormat "Bob" ⟨"Alice", "waves", 7, false, true⟩ =
      FormatActionMessage "Alice" "waves" ++ "\r\n" ∧
    Effect.sendTo "Alice" (⟨"Alice", "waves", 7, false, true⟩ : Message) ∈
      (roomStep ⟨"R", 10, ["Alice", "Bob"]⟩
        (RoomReq.broadcast ⟨"Alice", "waves", 7, false, true⟩)).2 ∧
    FormatActionMessage "Alice" "waves" = "* Alice waves" := by
  have h1 := C8_me_action_command ⟨"R", 10, ["Alice", "Bob"]⟩ ⟨"Alice", [], false⟩ "/me   " 7
    "Alice" ⟨"Alice", "waves", 7, false, true⟩
  have h2 := C8_me_action_command ⟨"R", 10, ["Alice", "Bob"]⟩ ⟨"Alice", [], false⟩ "/me waves" 7
    "Alice" ⟨"Alice", "waves", 7, false, true⟩
  exact ⟨h1.1 (by decide) (by decide), h2.2.1 (by decide) (by decide),
    h1.2.2.1 (by decide) (by decide) "Bob", h1.2.2.2.1 (by decide), h1.2.2.2.2⟩

lemma roomLifecycle_invariant {s : RoomLifecycle} (h : RoomLifecycleReachable s) :
    (s.doneClosed = true → s.runExited = true) ∧
    (s.stopReturned = true → s.doneClosed = true) := by
  induction h with
  | init => simp [roomLifecycleInit]
  | step h hs ih => cases hs <;> simp_all

/-- C9: `Stop` on the server performs a `closeConn` effect for every live
connection and closes the listener; and in every reachable state of the
room's shutdown protocol in which `Stop` has returned, the `done` channel
has been closed and the `run` control-loop goroutine has exited — `Stop`
blocks on `done` and so returns only after the control loop is gone. -/
theorem C9_stop_joins_control_loop (conns : List String) (addr : String)
    (tailscaleMode : Bool) (s : RoomLifecycle)
    (haddr : addr ∈ conns) (hreach : RoomLifecycleReachable s)
    (hstop : s.stopReturned = true) :
    Effect.closeConn addr ∈ serverStop conns true tailscaleMode ∧
    Effect.closeListener ∈ serverStop conns true tailscaleMode ∧
    s.doneClosed = true ∧ s.runExited = true := by
  have hinv := roomLifecycle_invariant hreach
  have hd : s.doneClosed = true := hinv.2 hstop
  refine ⟨?_, ?_, hd, hinv.1 hd⟩
  · simp only [serverStop, List.mem_append, List.mem_map]
    exact Or.inl (Or.inl (Or.inl (Or.inr ⟨addr, haddr, rfl⟩)))
  · simp [serverStop]

theorem C9_stop_joins_control_loop_witness :
    "peer1" ∈ ["peer1", "peer2"] ∧
    Effect.closeConn "peer1" ∈ serverStop ["peer1", "peer2"] true false ∧
    Effect.closeListener ∈ serverStop ["peer1", "peer2"] true false ∧
    (⟨true, true, true, true⟩ : RoomLifecycle).doneClosed = true ∧
    (⟨true, true, true, true⟩ : RoomLifecycle).runExited = true := by
  have r1 : RoomLifecycleReachable ⟨true, false, false, false⟩ :=
    RoomLifecycleReachable.step RoomLifecycleReachable.init
      (RoomLifecycleStep.cancel roomLifecycleInit)
  have r2 : RoomLifecycleReachable ⟨true, true, true, false⟩ :=
    RoomLifecycleReachable.step r1 (RoomLifecycleStep.runExit ⟨true, false, false, false⟩ rfl rfl)
  have r3 : RoomLifecycleReachable ⟨true, true, true, true⟩ :=
    RoomLifecycleReachable.step r2 (RoomLifecycleStep.stopReturn ⟨true, true, true, false⟩ rfl)
  have h := C9_stop_joins_control_loop ["peer1", "peer2"] "peer1" false
    ⟨true, true, true, true⟩ (by decide) r3 rfl
  exact ⟨by decide, h.1, h.2.1, h.2.2.1, h.2.2.2⟩

/-- C10: command dispatch lowercases only the command word, so `/WHO`,
`/Me`, `/HELP` and `/QUIT` are dispatched as their lowercase commands; but
the rate-limit exemption tests the raw trimmed line for the case-sensitive
characters "/quit", so `/QUIT` from a session with five in-window
timestamps is rate-limited (and its timestamp recorded) instead of
quitting, while `/quit` from the same state quits without any rate-limit
check, and `/quitnow` also bypasses the check and falls through to the
unknown-command notice. -/
theorem C10_quit_case_sensitivity :
    handleCommand ⟨"R", 10, ["Alice", "Bob"]⟩ ⟨"Alice", [], false⟩ "/WHO" 0 =
      ([Effect.writeSelf "Alice" (FormatUserList "R" ["Alice", "Bob"] 10 ++ "\r\n")], none) ∧
    handleCommand ⟨"R", 10, ["Alice", "Bob"]⟩ ⟨"Alice", [], false⟩ "/Me waves" 0 =
      ([Effect.broadcastReq
          { sender := "Alice", content := "waves", timestamp := 0,
            isSystem := false, isAction := true }], none) ∧
    handleCommand ⟨"R", 10, ["Alice", "Bob"]⟩ ⟨"Alice", [], false⟩ "/HELP" 0 =
      ([Effect.writeSelf "Alice" (FormatHelp ++ "\r\n")], none) ∧
    handleCommand ⟨"R", 10, ["Alice", "Bob"]⟩ ⟨"Alice", [], false⟩ "/QUIT" 0 =
      ([Effect.sendSystem "Alice" "Goodbye!", Effect.closeConn "Alice"], none) ∧
    handleLine ⟨"R", 10, ["Alice", "Bob"]⟩ ⟨"Alice", [0, 0, 0, 0, 0], false⟩ "/QUIT" 0 =
      (⟨"Alice", [0, 0, 0, 0, 0, 0], false⟩,
        [Effect.sendSystem "Alice" ("Error: " ++ rateLimitErrorText 5000)]) ∧
    handleLine ⟨"R", 10, ["Alice", "Bob"]⟩ ⟨"Alice", [0, 0, 0, 0, 0], false⟩ "/quit" 0 =
      (⟨"Alice", [0, 0, 0, 0, 0], false⟩,
        [Effect.sendSystem "Alice" "Goodbye!", Effect.closeConn "Alice"]) ∧
    handleLine ⟨"R", 10, ["Alice", "Bob"]⟩ ⟨"Alice", [0, 0, 0, 0, 0], false⟩ "/quitnow" 0 =
      (⟨"Alice", [0, 0, 0, 0, 0], false⟩,
        [Effect.sendSystem "Alice" "Unknown command: /quitnow",
          Effect.sendSystem "Alice" "Error: unknown command: /quitnow"]) := by
  decide
